import Mathlib

/-!
Shallow embedding of `src/src/cargo/util_schemas/manifest.rs`: the manifest
schema types, their serde decoders, and the profile merge engine.  TOML input
values are modelled by an explicit tree (`Toml`), serde's `Deserialize` impls
by total functions `Toml → Except String _`, and the one decoder in the source
that can panic (`TomlDependency::deserialize`, which calls `.expect(..)`) by a
three-valued `DecodeResult` whose `crash` constructor records the panic
message.  `BTreeMap` values are modelled as association lists; TOML tables
never carry duplicate keys, so key-based lookup agrees with the map.
-/

/-- Parsed TOML value tree, the input of every decoder in the source file
(`toml::Value` / serde's data model restricted to the shapes TOML produces). -/
inductive Toml where
  | str (s : String)
  | bool (b : Bool)
  | int (n : Int)
  | arr (xs : List Toml)
  | table (kvs : List (String × Toml))
deriving Repr

/-- First value stored under `key`, as serde's map access yields it. -/
def tomlLookup (key : String) : List (String × Toml) → Option Toml
  | [] => none
  | (k, v) :: rest => if k = key then some v else tomlLookup key rest

/-- Rendering of a value in serde's `Unexpected` style, used to build the
`invalid type` / `invalid value` error strings the deserializers raise. -/
def Toml.unexpectedDesc : Toml → String
  | .str s => "string \"" ++ s ++ "\""
  | .bool b => "boolean `" ++ (if b then "true" else "false") ++ "`"
  | .int n => "integer `" ++ toString n ++ "`"
  | .arr _ => "sequence"
  | .table _ => "map"

/-- Serde's `Error::invalid_type(unexpected, expected)` message. -/
def invalidType (v : Toml) (expected : String) : String :=
  "invalid type: " ++ v.unexpectedDesc ++ ", expected " ++ expected

/-- Serde's `Error::invalid_value(unexpected, expected)` message. -/
def invalidValue (v : Toml) (expected : String) : String :=
  "invalid value: " ++ v.unexpectedDesc ++ ", expected " ++ expected

/-- Primitive serde decode of a boolean. -/
def decodeBool : Toml → Except String Bool
  | .bool b => .ok b
  | v => .error (invalidType v "a boolean")

/-- Primitive serde decode of a string. -/
def decodeString : Toml → Except String String
  | .str s => .ok s
  | v => .error (invalidType v "a string")

/-- Primitive serde decode of a `Vec<String>`. -/
def decodeVecString : Toml → Except String (List String)
  | .arr xs => xs.mapM decodeString
  | v => .error (invalidType v "a sequence")

/-- Decode of an `Option<T>` struct field: absent keys yield `none`, present
keys decode with `dec` (serde derive semantics for optional fields). -/
def optField (dec : Toml → Except String α) (kvs : List (String × Toml)) (key : String) :
    Except String (Option α) :=
  match tomlLookup key kvs with
  | none => .ok none
  | some v => (dec v).map some

/-- Key lookup in an association list standing for a `BTreeMap`. -/
def alGet [DecidableEq κ] (l : List (κ × ν)) (k : κ) : Option ν :=
  match l with
  | [] => none
  | (s, p) :: rest => if s = k then some p else alGet rest k

/-- Outcome of running a deserializer that may panic: `ok` and `err` mirror
`Result`, `crash` models a Rust panic (here: the `.expect(..)` call in
`TomlDependency::deserialize`) together with its panic message. -/
inductive DecodeResult (α : Type) where
  | ok (a : α)
  | err (msg : String)
  | crash (msg : String)
deriving Repr

/-- Functorial map on the `ok` constructor of `DecodeResult`. -/
def DecodeResult.map (f : α → β) : DecodeResult α → DecodeResult β
  | .ok a => .ok (f a)
  | .err m => .err m
  | .crash m => .crash m

/-- Embeds `StringOrVec`: parsed from either a TOML string or array, always
stored as a vector. -/
structure StringOrVec where
  val : List String
deriving DecidableEq, Repr

/-- Embeds `StringOrVec`'s `Deserialize` impl. -/
def StringOrVec.deserialize : Toml → Except String StringOrVec
  | .str s => .ok ⟨[s]⟩
  | .arr xs => (xs.mapM decodeString).map StringOrVec.mk
  | v => .error (invalidType v "string or list of strings")

/-- Embeds `StringOrBool` (variants `String` / `Bool` in the source; lowercase
here so the constructor does not shadow the `String` type in this namespace). -/
inductive StringOrBool where
  | str (s : String)
  | bool (b : Bool)
deriving DecidableEq, Repr

/-- Embeds `StringOrBool`'s `Deserialize` impl (bool and string shapes only). -/
def StringOrBool.deserialize : Toml → Except String StringOrBool
  | .bool b => .ok (.bool b)
  | .str s => .ok (.str s)
  | v => .error (invalidType v "a boolean or string")

/-- Embeds `VecStringOrBool` (variants `VecString` / `Bool` in the source). -/
inductive VecStringOrBool where
  | vecString (v : List String)
  | bool (b : Bool)
deriving DecidableEq, Repr

/-- Embeds `VecStringOrBool`'s `Deserialize` impl. -/
def VecStringOrBool.deserialize : Toml → Except String VecStringOrBool
  | .bool b => .ok (.bool b)
  | .arr xs => (xs.mapM decodeString).map VecStringOrBool.vecString
  | v => .error (invalidType v "a boolean or vector of strings")

/-- Embeds `PathValue` (a `PathBuf` decoded from a string). -/
structure PathValue where
  val : String
deriving DecidableEq, Repr

/-- Embeds `PathValue`'s `Deserialize` impl. -/
def PathValue.deserialize : Toml → Except String PathValue
  | .str s => .ok ⟨s⟩
  | v => .error (invalidType v "a string")

/-- Modelled from the spec: the external `semver::Version` type (semantic
version parsing is an out-of-scope collaborator); the manifest decoders only
carry such values around, never inspect them. -/
structure SemverVersion where
  major : Nat
  minor : Nat
  patch : Nat
deriving DecidableEq, Repr

/-- Modelled from the spec: the external `PartialVersion` type from
`util_semver` — a partial toolchain version with optional pre-release and
build-metadata components, which `RustVersion` inspects. -/
structure PartialVersion where
  major : Nat
  minor : Option Nat
  patch : Option Nat
  pre : Option String
  build : Option String
deriving DecidableEq, Repr

/-- Embeds `RustVersion`, a `PartialVersion` restricted at parse time. -/
structure RustVersion where
  val : PartialVersion
deriving DecidableEq, Repr

/-- Embeds `RustVersion::from_str`, parameterized by the external
`PartialVersion` parser: pre-release or build metadata is rejected. -/
def RustVersion.from_str (parsePv : String → Except String PartialVersion)
    (value : String) : Except String RustVersion := do
  let p ← parsePv value
  if p.pre.isSome then
    .error "unexpected prerelease field, expected a version like \"1.32\""
  else if p.build.isSome then
    .error "unexpected prerelease field, expected a version like \"1.32\""
  else
    .ok ⟨p⟩

/-- Modelled from the spec: output of the external package-identifier-pattern
parser (`PackageIdSpec`), represented by its source text; the merge engine
uses it only as a map key, through equality. -/
structure PackageIdSpec where
  raw : String
deriving DecidableEq, Repr

/-- Embeds `TomlInheritedField`: the inheritance marker table, whose only
recognized key is `workspace` (decoded through `bool_no_false`). -/
structure TomlInheritedField where
  workspace : Bool
deriving DecidableEq, Repr

/-- Embeds `bool_no_false`: decodes a boolean and rejects `false` with the
error "`workspace` cannot be false". -/
def bool_no_false (v : Toml) : Except String Bool := do
  let b ← decodeBool v
  if b then .ok b else .error "`workspace` cannot be false"

/-- Embeds the serde-derived `Deserialize` for `TomlInheritedField` over a
table: the `workspace` field is required and decoded with `bool_no_false`;
keys other than `workspace` are skipped, since the derive carries no
`deny_unknown_fields` attribute (serde ignores unknown fields by default).
TOML tables never repeat a key, so the first occurrence is taken. -/
def TomlInheritedField.deserialize (kvs : List (String × Toml)) :
    Except String TomlInheritedField :=
  match tomlLookup "workspace" kvs with
  | none => .error "missing field `workspace`"
  | some v => (bool_no_false v).map TomlInheritedField.mk

/-- Embeds deserializing a `TomlInheritedField` from a buffered
`serde_value::Value` of any shape (as `InheritableBtreeMap`'s impl does):
non-table shapes raise serde's invalid-type error for a struct. -/
def TomlInheritedField.fromValue : Toml → Except String TomlInheritedField
  | .table kvs => TomlInheritedField.deserialize kvs
  | v => .error (invalidType v "struct TomlInheritedField")

/-- Embeds `InheritableField<T>`: a direct value or a workspace-inheritance
marker. -/
inductive InheritableField (T : Type) where
  | Value (t : T)
  | Inherit (w : TomlInheritedField)
deriving DecidableEq, Repr

/-- Embeds `InheritableField::as_value`. -/
def InheritableField.as_value : InheritableField T → Option T
  | .Inherit _ => none
  | .Value defined => some defined

/-- Embeds the type alias `InheritableString`. -/
abbrev InheritableString := InheritableField String

/-- Embeds `InheritableString`'s `Deserialize` impl: its visitor accepts a
string (as a direct value) or a map (as an inheritance marker); every other
shape raises the visitor's invalid-type error, expecting
"a string or workspace". -/
def InheritableString.deserialize : Toml → Except String InheritableString
  | .str s => .ok (.Value s)
  | .table kvs => (TomlInheritedField.deserialize kvs).map .Inherit
  | v => .error (invalidType v "a string or workspace")

/-- Embeds the type alias `InheritableSemverVersion`. -/
abbrev InheritableSemverVersion := InheritableField SemverVersion

/-- Embeds `InheritableSemverVersion`'s `Deserialize` impl, parameterized by
the external `semver::Version` string parser (`value.trim().parse()`). -/
def InheritableSemverVersion.deserialize
    (parseSemver : String → Except String SemverVersion) :
    Toml → Except String InheritableSemverVersion
  | .str s => (parseSemver s.trim).map .Value
  | .table kvs => (TomlInheritedField.deserialize kvs).map .Inherit
  | v => .error (invalidType v "SemVer version")

/-- Embeds the type alias `InheritableRustVersion`. -/
abbrev InheritableRustVersion := InheritableField RustVersion

/-- Embeds `InheritableRustVersion`'s `Deserialize` impl, parameterized by the
external `PartialVersion` parser that `RustVersion::from_str` consumes. -/
def InheritableRustVersion.deserialize
    (parsePv : String → Except String PartialVersion) :
    Toml → Except String InheritableRustVersion
  | .str s => (RustVersion.from_str parsePv s).map .Value
  | .table kvs => (TomlInheritedField.deserialize kvs).map .Inherit
  | v => .error (invalidType v "a semver or workspace")

/-- Embeds the type alias `InheritableVecString`. -/
abbrev InheritableVecString := InheritableField (List String)

/-- Embeds `InheritableVecString`'s `Deserialize` impl (sequence or map). -/
def InheritableVecString.deserialize : Toml → Except String InheritableVecString
  | .arr xs => (xs.mapM decodeString).map .Value
  | .table kvs => (TomlInheritedField.deserialize kvs).map .Inherit
  | v => .error (invalidType v "a vector of strings or workspace")

/-- Embeds the type alias `InheritableStringOrBool`. -/
abbrev InheritableStringOrBool := InheritableField StringOrBool

/-- Embeds `InheritableStringOrBool`'s `Deserialize` impl (bool, string or
map). -/
def InheritableStringOrBool.deserialize : Toml → Except String InheritableStringOrBool
  | .bool b => .ok (.Value (.bool b))
  | .str s => .ok (.Value (.str s))
  | .table kvs => (TomlInheritedField.deserialize kvs).map .Inherit
  | v => .error (invalidType v "a string, a bool, or workspace")

/-- Embeds the type alias `InheritableVecStringOrBool`. -/
abbrev InheritableVecStringOrBool := InheritableField VecStringOrBool

/-- Embeds `InheritableVecStringOrBool`'s `Deserialize` impl (bool, sequence
or map). -/
def InheritableVecStringOrBool.deserialize :
    Toml → Except String InheritableVecStringOrBool
  | .bool b => .ok (.Value (.bool b))
  | .arr xs => (xs.mapM decodeString).map (fun v => .Value (.vecString v))
  | .table kvs => (TomlInheritedField.deserialize kvs).map .Inherit
  | v => .error (invalidType v "a boolean, a vector of strings, or workspace")

/-- Decode of a `BTreeMap<String, String>` table value. -/
def decodeStringMap : Toml → Except String (List (String × String))
  | .table kvs => kvs.mapM (fun kv => (decodeString kv.2).map (fun s => (kv.1, s)))
  | v => .error (invalidType v "a map")

/-- Decode of a `BTreeMap<String, BTreeMap<String, String>>` (the badges
table). -/
def decodeBadges : Toml → Except String (List (String × List (String × String)))
  | .table kvs => kvs.mapM (fun kv => (decodeStringMap kv.2).map (fun m => (kv.1, m)))
  | v => .error (invalidType v "a map")

/-- Embeds the type alias `InheritableBtreeMap`. -/
abbrev InheritableBtreeMap := InheritableField (List (String × List (String × String)))

/-- Embeds `InheritableBtreeMap`'s `Deserialize` impl: the buffered value is
first tried as a `TomlInheritedField`; on success `workspace` is checked
(`false` raises "`workspace` cannot be false"); on failure the value is
decoded as the badges map instead and the marker's error is discarded. -/
def InheritableBtreeMap.deserialize (v : Toml) : Except String InheritableBtreeMap :=
  match TomlInheritedField.fromValue v with
  | .ok w =>
    if w.workspace then .ok (.Inherit w) else .error "`workspace` cannot be false"
  | .error _ => (decodeBadges v).map .Value

/-- Embeds `TomlDetailedDependency` (with its path parameter `P = String`,
the default): every schema field is optional, and table keys matching no
schema field are retained verbatim in `_unused_keys` by the
`#[serde(flatten)]` bag. -/
structure TomlDetailedDependency where
  version : Option String := none
  registry : Option String := none
  registry_index : Option String := none
  path : Option String := none
  git : Option String := none
  branch : Option String := none
  tag : Option String := none
  rev : Option String := none
  features : Option (List String) := none
  optional : Option Bool := none
  default_features : Option Bool := none
  default_features2 : Option Bool := none
  package : Option String := none
  public : Option Bool := none
  artifact : Option StringOrVec := none
  lib : Option Bool := none
  target : Option String := none
  _unused_keys : List (String × Toml) := []
deriving Repr

/-- Embeds the explicit `Default` impl for `TomlDetailedDependency` (every
field at its default). -/
def TomlDetailedDependency.default : TomlDetailedDependency := {}

/-- Embeds the accessor `TomlDetailedDependency::default_features` (renamed:
the Lean projection already takes the field's name): the non-legacy
`default-features` slot wins over the legacy `default_features` spelling. -/
def TomlDetailedDependency.defaultFeatures (d : TomlDetailedDependency) : Option Bool :=
  d.default_features.or d.default_features2

/-- Keys of `TomlDetailedDependency` recognized by the serde derive, after
kebab-case renaming plus the explicit `default_features` alias. -/
def tomlDetailedDependencyKeys : List String :=
  ["version", "registry", "registry-index", "path", "git", "branch", "tag", "rev",
   "features", "optional", "default-features", "default_features", "package",
   "public", "artifact", "lib", "target"]

/-- Embeds the serde-derived decode of a `TomlDetailedDependency` table:
each recognized key decodes into its field, all remaining keys land in
`_unused_keys` (never an error). -/
def TomlDetailedDependency.deserialize (kvs : List (String × Toml)) :
    Except String TomlDetailedDependency := do
  let version ← optField decodeString kvs "version"
  let registry ← optField decodeString kvs "registry"
  let registry_index ← optField decodeString kvs "registry-index"
  let path ← optField decodeString kvs "path"
  let git ← optField decodeString kvs "git"
  let branch ← optField decodeString kvs "branch"
  let tag ← optField decodeString kvs "tag"
  let rev ← optField decodeString kvs "rev"
  let features ← optField decodeVecString kvs "features"
  let optional ← optField decodeBool kvs "optional"
  let df ← optField decodeBool kvs "default-features"
  let df2 ← optField decodeBool kvs "default_features"
  let packageName ← optField decodeString kvs "package"
  let pub ← optField decodeBool kvs "public"
  let artifact ← optField StringOrVec.deserialize kvs "artifact"
  let lib ← optField decodeBool kvs "lib"
  let target ← optField decodeString kvs "target"
  .ok { version := version, registry := registry, registry_index := registry_index,
        path := path, git := git, branch := branch, tag := tag, rev := rev,
        features := features, optional := optional, default_features := df,
        default_features2 := df2, package := packageName, public := pub,
        artifact := artifact, lib := lib, target := target,
        _unused_keys := kvs.filter (fun kv => !(tomlDetailedDependencyKeys.contains kv.1)) }

/-- Embeds `TomlDependency` (with `P = String`): a bare version string
(`Simple`, the `Spanned<String>` wrapper elided) or a detailed table. -/
inductive TomlDependency where
  | Simple (s : String)
  | Detailed (d : TomlDetailedDependency)
deriving Repr

/-- Embeds `TomlDependency::is_version_specified`. -/
def TomlDependency.is_version_specified : TomlDependency → Bool
  | .Detailed d => d.version.isSome
  | .Simple _ => true

/-- Embeds `TomlDependency::is_optional`. -/
def TomlDependency.is_optional : TomlDependency → Bool
  | .Detailed d => d.optional.getD false
  | .Simple _ => false

/-- Embeds `TomlDependency::is_public`. -/
def TomlDependency.is_public : TomlDependency → Bool
  | .Detailed d => d.public.getD false
  | .Simple _ => false

/-- Embeds `TomlDependency::unused_keys`. -/
def TomlDependency.unused_keys : TomlDependency → List String
  | .Simple _ => []
  | .Detailed detailed => detailed._unused_keys.map Prod.fst

/-- Embeds `TomlDependency::deserialize` as it stands in this source tree:
the deserializer only attempts the `Spanned<String>` shape and then calls
`.expect("TODO: it's a toml map, toml dep detailed decode")` on the result,
so a string input yields `Simple` and every other shape (the detailed table
included) panics with that message; the original table branch is commented
out in the source. -/
def TomlDependency.deserialize (v : Toml) : DecodeResult TomlDependency :=
  match v with
  | .str s => .ok (.Simple s)
  | _ => .crash "TODO: it's a toml map, toml dep detailed decode"

/-- Embeds `TomlInheritedDependency`: an inheritance marker that may carry
`features` / `default-features` / `optional` / `public` overrides, plus the
`_unused_keys` bag from `#[serde(flatten)]`. -/
structure TomlInheritedDependency where
  workspace : Bool
  features : Option (List String) := none
  default_features : Option Bool := none
  default_features2 : Option Bool := none
  optional : Option Bool := none
  public : Option Bool := none
  _unused_keys : List (String × Toml) := []
deriving Repr

/-- Embeds the accessor `TomlInheritedDependency::default_features` (renamed,
as the projection takes the field's name): non-legacy spelling wins. -/
def TomlInheritedDependency.defaultFeatures (w : TomlInheritedDependency) : Option Bool :=
  w.default_features.or w.default_features2

/-- Keys of `TomlInheritedDependency` recognized by the serde derive. -/
def tomlInheritedDependencyKeys : List String :=
  ["workspace", "features", "default-features", "default_features", "optional", "public"]

/-- Embeds the serde-derived decode of a `TomlInheritedDependency` table:
`workspace` is required (and decoded as a plain bool — `bool_no_false` is not
applied here), the overrides are optional, everything else goes to
`_unused_keys`. -/
def TomlInheritedDependency.deserialize (kvs : List (String × Toml)) :
    Except String TomlInheritedDependency := do
  let w ← match tomlLookup "workspace" kvs with
    | none => Except.error "missing field `workspace`"
    | some v => decodeBool v
  let features ← optField decodeVecString kvs "features"
  let df ← optField decodeBool kvs "default-features"
  let df2 ← optField decodeBool kvs "default_features"
  let optional ← optField decodeBool kvs "optional"
  let pub ← optField decodeBool kvs "public"
  .ok { workspace := w, features := features, default_features := df,
        default_features2 := df2, optional := optional, public := pub,
        _unused_keys := kvs.filter (fun kv => !(tomlInheritedDependencyKeys.contains kv.1)) }

/-- Embeds deserializing a `TomlInheritedDependency` from a buffered
`serde_value::Value` of any shape. -/
def TomlInheritedDependency.fromValue : Toml → Except String TomlInheritedDependency
  | .table kvs => TomlInheritedDependency.deserialize kvs
  | v => .error (invalidType v "struct TomlInheritedDependency")

/-- Embeds `InheritableDependency`: a direct dependency or an inherited one. -/
inductive InheritableDependency where
  | Value (d : TomlDependency)
  | Inherit (w : TomlInheritedDependency)
deriving Repr

/-- Embeds `InheritableDependency::unused_keys`. -/
def InheritableDependency.unused_keys : InheritableDependency → List String
  | .Value d => d.unused_keys
  | .Inherit w => w._unused_keys.map Prod.fst

/-- Embeds `InheritableDependency::deserialize`: the buffered value is first
tried as a `TomlInheritedDependency`; on success `workspace = false` raises
"`workspace` cannot be false" and `true` yields `Inherit`; on failure the
value decodes as a plain `TomlDependency` (which, in this source tree, panics
on non-string shapes). -/
def InheritableDependency.deserialize (v : Toml) : DecodeResult InheritableDependency :=
  match TomlInheritedDependency.fromValue v with
  | .ok w =>
    if w.workspace then .ok (.Inherit w) else .err "`workspace` cannot be false"
  | .error _ => (TomlDependency.deserialize v).map .Value

/-- Embeds `TomlOptLevel`: the optimization level, stored as text. -/
structure TomlOptLevel where
  val : String
deriving DecidableEq, Repr

/-- Embeds `TomlOptLevel`'s `Serialize` impl: numeric text re-encodes as a
number (`u32` parse), everything else as the original string. -/
def TomlOptLevel.serialize (o : TomlOptLevel) : Toml :=
  match o.val.toNat? with
  | some n => .int n
  | none => .str o.val

/-- Embeds `TomlOptLevel`'s `Deserialize` impl: any `i64` is accepted and
stored as its decimal string; of the strings exactly "s" and "z" are
accepted, any other string raises the error listing the accepted shapes;
remaining shapes fall through the untagged visitor's expecting message. -/
def TomlOptLevel.deserialize : Toml → Except String TomlOptLevel
  | .int n => .ok ⟨toString n⟩
  | .str s =>
    if s = "s" ∨ s = "z" then .ok ⟨s⟩
    else
      .error ("must be `0`, `1`, `2`, `3`, `s` or `z`, but found the string: \""
        ++ s ++ "\"")
  | v => .error (invalidType v "an optimization level")

/-- Embeds `TomlDebugInfo`. -/
inductive TomlDebugInfo where
  | None
  | LineDirectivesOnly
  | LineTablesOnly
  | Limited
  | Full
deriving DecidableEq, Repr

/-- Embeds `TomlDebugInfo`'s `Display` impl. -/
def TomlDebugInfo.display : TomlDebugInfo → String
  | .None => "0"
  | .Limited => "1"
  | .Full => "2"
  | .LineDirectivesOnly => "line-directives-only"
  | .LineTablesOnly => "line-tables-only"

/-- Embeds `TomlDebugInfo`'s `Serialize` impl: numeric levels encode as the
integers 0/1/2, named levels as their strings — `Full` never re-encodes as
the boolean `true`. -/
def TomlDebugInfo.serialize : TomlDebugInfo → Toml
  | .None => .int 0
  | .LineDirectivesOnly => .str "line-directives-only"
  | .LineTablesOnly => .str "line-tables-only"
  | .Limited => .int 1
  | .Full => .int 2

/-- Expecting message of `TomlDebugInfo`'s untagged visitor. -/
def tomlDebugInfoExpecting : String :=
  "a boolean, 0, 1, 2, \"line-tables-only\", or \"line-directives-only\""

/-- Embeds `TomlDebugInfo`'s `Deserialize` impl: booleans map one-way onto
`Full`/`None`, the integers 0/1/2 onto `None`/`Limited`/`Full` (others are
invalid values), and the five named strings onto their variants. -/
def TomlDebugInfo.deserialize : Toml → Except String TomlDebugInfo
  | .bool value => .ok (if value then .Full else .None)
  | .int value =>
    if value = 0 then .ok .None
    else if value = 1 then .ok .Limited
    else if value = 2 then .ok .Full
    else .error (invalidValue (.int value) tomlDebugInfoExpecting)
  | .str value =>
    if value = "none" then .ok .None
    else if value = "limited" then .ok .Limited
    else if value = "full" then .ok .Full
    else if value = "line-directives-only" then .ok .LineDirectivesOnly
    else if value = "line-tables-only" then .ok .LineTablesOnly
    else .error (invalidValue (.str value) tomlDebugInfoExpecting)
  | v => .error (invalidType v tomlDebugInfoExpecting)

/-- Embeds `TomlTrimPathsValue`. -/
inductive TomlTrimPathsValue where
  | Diagnostics
  | Macro
  | Object
deriving DecidableEq, Repr

/-- Embeds `TomlTrimPathsValue::as_str`. -/
def TomlTrimPathsValue.as_str : TomlTrimPathsValue → String
  | .Diagnostics => "diagnostics"
  | .Macro => "macro"
  | .Object => "object"

/-- Embeds the serde-derived (kebab-case) decode of a `TomlTrimPathsValue`
from a string. -/
def TomlTrimPathsValue.fromString (s : String) : Except String TomlTrimPathsValue :=
  if s = "diagnostics" then .ok .Diagnostics
  else if s = "macro" then .ok .Macro
  else if s = "object" then .ok .Object
  else .error ("unknown variant `" ++ s ++ "`")

/-- Embeds `TomlTrimPaths`: `All` or an ordered list of values; equality is
the derived structural (order-sensitive) `PartialEq`. -/
inductive TomlTrimPaths where
  | Values (v : List TomlTrimPathsValue)
  | All
deriving DecidableEq, Repr

/-- Embeds `TomlTrimPaths::none`. -/
def TomlTrimPaths.none : TomlTrimPaths := .Values []

/-- Embeds `TomlTrimPaths::is_none`. -/
def TomlTrimPaths.is_none : TomlTrimPaths → Bool
  | .Values v => v.isEmpty
  | .All => false

/-- Expecting message of `TomlTrimPaths`' untagged visitor. -/
def tomlTrimPathsExpecting : String :=
  "a boolean, \"none\", \"diagnostics\", \"macro\", \"object\", \"all\", or an array with these options"

/-- Embeds `TomlTrimPaths`' `Deserialize` impl: `true`/`false` map to
`All`/`none()`; the strings "none"/"all" map likewise, any other string is
tried as a single `TomlTrimPathsValue` (its error replaced by the expecting
message); a sequence decodes as strings first, then each through
`TomlTrimPathsValue`. -/
def TomlTrimPaths.deserialize : Toml → Except String TomlTrimPaths
  | .bool value => .ok (if value then .All else TomlTrimPaths.none)
  | .str v =>
    if v = "none" then .ok TomlTrimPaths.none
    else if v = "all" then .ok .All
    else
      match TomlTrimPathsValue.fromString v with
      | .ok value => .ok (.Values [value])
      | .error _ => .error ("expected " ++ tomlTrimPathsExpecting)
  | .arr xs => do
    let seq ← xs.mapM decodeString
    let seq ← seq.mapM TomlTrimPathsValue.fromString
    .ok (.Values seq)
  | v => .error (invalidType v tomlTrimPathsExpecting)

/-- Embeds `TomlTrimPaths`' `Display` impl: `All` prints "all", the empty
value set prints "none", and a non-empty set prints its elements in order,
comma-separated. -/
def TomlTrimPaths.display : TomlTrimPaths → String
  | .All => "all"
  | .Values [] => "none"
  | .Values (value :: rest) =>
    rest.foldl (fun acc x => acc ++ "," ++ x.as_str) value.as_str

/-- Embeds `ProfilePackageSpec`: a parsed package-id pattern or the `"*"`
wildcard. -/
inductive ProfilePackageSpec where
  | Spec (spec : PackageIdSpec)
  | All
deriving DecidableEq, Repr

/-- Embeds `ProfilePackageSpec`'s `Deserialize` impl, parameterized by the
external `PackageIdSpec::parse` collaborator: the literal `"*"` is
special-cased to `All` before that parser runs. -/
def ProfilePackageSpec.deserialize (parse : String → Except String PackageIdSpec)
    (v : Toml) : Except String ProfilePackageSpec := do
  let string ← decodeString v
  if string = "*" then .ok .All else (parse string).map .Spec

/-- Embeds `TomlProfile`.  A Lean `structure` cannot be recursive, so the
record is a one-constructor inductive whose arguments are the source's fields
in declaration order; projections follow.  The `package` map is an
association list, `build_override` a direct child. -/
inductive TomlProfile where
  | mk
    (opt_level : Option TomlOptLevel)
    (lto : Option StringOrBool)
    (codegen_backend : Option String)
    (codegen_units : Option Nat)
    (debug : Option TomlDebugInfo)
    (split_debuginfo : Option String)
    (debug_assertions : Option Bool)
    (rpath : Option Bool)
    (panic : Option String)
    (overflow_checks : Option Bool)
    (incremental : Option Bool)
    (dir_name : Option String)
    (inherits : Option String)
    (strip : Option StringOrBool)
    (rustflags : Option (List String))
    (package : Option (List (ProfilePackageSpec × TomlProfile)))
    (build_override : Option TomlProfile)
    (trim_paths : Option TomlTrimPaths)

/-- Projection: `opt_level`. -/
def TomlProfile.opt_level : TomlProfile → Option TomlOptLevel
  | .mk v _ _ _ _ _ _ _ _ _ _ _ _ _ _ _ _ _ => v

/-- Projection: `lto`. -/
def TomlProfile.lto : TomlProfile → Option StringOrBool
  | .mk _ v _ _ _ _ _ _ _ _ _ _ _ _ _ _ _ _ => v

/-- Projection: `codegen_backend`. -/
def TomlProfile.codegen_backend : TomlProfile → Option String
  | .mk _ _ v _ _ _ _ _ _ _ _ _ _ _ _ _ _ _ => v

/-- Projection: `codegen_units`. -/
def TomlProfile.codegen_units : TomlProfile → Option Nat
  | .mk _ _ _ v _ _ _ _ _ _ _ _ _ _ _ _ _ _ => v

/-- Projection: `debug`. -/
def TomlProfile.debug : TomlProfile → Option TomlDebugInfo
  | .mk _ _ _ _ v _ _ _ _ _ _ _ _ _ _ _ _ _ => v

/-- Projection: `split_debuginfo`. -/
def TomlProfile.split_debuginfo : TomlProfile → Option String
  | .mk _ _ _ _ _ v _ _ _ _ _ _ _ _ _ _ _ _ => v

/-- Projection: `debug_assertions`. -/
def TomlProfile.debug_assertions : TomlProfile → Option Bool
  | .mk _ _ _ _ _ _ v _ _ _ _ _ _ _ _ _ _ _ => v

/-- Projection: `rpath`. -/
def TomlProfile.rpath : TomlProfile → Option Bool
  | .mk _ _ _ _ _ _ _ v _ _ _ _ _ _ _ _ _ _ => v

/-- Projection: `panic`. -/
def TomlProfile.panicSetting : TomlProfile → Option String
  | .mk _ _ _ _ _ _ _ _ v _ _ _ _ _ _ _ _ _ => v

/-- Projection: `overflow_checks`. -/
def TomlProfile.overflow_checks : TomlProfile → Option Bool
  | .mk _ _ _ _ _ _ _ _ _ v _ _ _ _ _ _ _ _ => v

/-- Projection: `incremental`. -/
def TomlProfile.incremental : TomlProfile → Option Bool
  | .mk _ _ _ _ _ _ _ _ _ _ v _ _ _ _ _ _ _ => v

/-- Projection: `dir_name`. -/
def TomlProfile.dir_name : TomlProfile → Option String
  | .mk _ _ _ _ _ _ _ _ _ _ _ v _ _ _ _ _ _ => v

/-- Projection: `inherits`. -/
def TomlProfile.inherits : TomlProfile → Option String
  | .mk _ _ _ _ _ _ _ _ _ _ _ _ v _ _ _ _ _ => v

/-- Projection: `strip`. -/
def TomlProfile.strip : TomlProfile → Option StringOrBool
  | .mk _ _ _ _ _ _ _ _ _ _ _ _ _ v _ _ _ _ => v

/-- Projection: `rustflags`. -/
def TomlProfile.rustflags : TomlProfile → Option (List String)
  | .mk _ _ _ _ _ _ _ _ _ _ _ _ _ _ v _ _ _ => v

/-- Projection: `package`. -/
def TomlProfile.package : TomlProfile → Option (List (ProfilePackageSpec × TomlProfile))
  | .mk _ _ _ _ _ _ _ _ _ _ _ _ _ _ _ v _ _ => v

/-- Projection: `build_override`. -/
def TomlProfile.build_override : TomlProfile → Option TomlProfile
  | .mk _ _ _ _ _ _ _ _ _ _ _ _ _ _ _ _ v _ => v

/-- Projection: `trim_paths`. -/
def TomlProfile.trim_paths : TomlProfile → Option TomlTrimPaths
  | .mk _ _ _ _ _ _ _ _ _ _ _ _ _ _ _ _ _ v => v

/-- Functional form of the per-scalar-field merge step
`if let Some(v) = &profile.f { self.f = Some(v.clone()) }`. -/
def mergeField (s o : Option α) : Option α :=
  match o with
  | some v => some v
  | none => s

mutual

/-- Embeds `TomlProfile::merge` (functionally: the state of `self` after the
call).  Scalar fields take `other`'s value when present; the `package` map
merges per key — recursively when the pattern exists on both sides, inserting
`other`'s entry otherwise; `build_override` merges recursively when present
on both sides and is adopted wholesale when only `other` has it. -/
def TomlProfile.merge : TomlProfile → TomlProfile → TomlProfile
  | .mk s1 s2 s3 s4 s5 s6 s7 s8 s9 s10 s11 s12 s13 s14 s15 sp sb st,
    .mk o1 o2 o3 o4 o5 o6 o7 o8 o9 o10 o11 o12 o13 o14 o15 op ob ot =>
    .mk (mergeField s1 o1) (mergeField s2 o2) (mergeField s3 o3) (mergeField s4 o4)
      (mergeField s5 o5) (mergeField s6 o6) (mergeField s7 o7) (mergeField s8 o8)
      (mergeField s9 o9) (mergeField s10 o10) (mergeField s11 o11) (mergeField s12 o12)
      (mergeField s13 o13) (mergeField s14 o14) (mergeField s15 o15)
      (match sp, op with
       | some selfPkgs, some otherPkgs => some (TomlProfile.mergePkgList selfPkgs otherPkgs)
       | none, some otherPkgs => some otherPkgs
       | keep, none => keep)
      (match sb, ob with
       | some selfBo, some otherBo => some (TomlProfile.merge selfBo otherBo)
       | none, some otherBo => some otherBo
       | keep, none => keep)
      (mergeField st ot)
termination_by _ other => (sizeOf other, 0, 0)

/-- The `for (spec, other_pkg_profile) in other_package` loop of
`TomlProfile::merge`, folded over the association list. -/
def TomlProfile.mergePkgList (selfList otherList : List (ProfilePackageSpec × TomlProfile)) :
    List (ProfilePackageSpec × TomlProfile) :=
  match otherList with
  | [] => selfList
  | (spec, op) :: rest =>
    TomlProfile.mergePkgList (TomlProfile.mergeOne selfList spec op) rest
termination_by (sizeOf otherList, 2, 0)

/-- One iteration of that loop: `self_package.get_mut(spec)` either merges in
place or inserts the entry (key-lookup semantics of the `BTreeMap`; the
insertion position in the association list is immaterial to every lookup). -/
def TomlProfile.mergeOne (selfList : List (ProfilePackageSpec × TomlProfile))
    (spec : ProfilePackageSpec) (op : TomlProfile) :
    List (ProfilePackageSpec × TomlProfile) :=
  match selfList with
  | [] => [(spec, op)]
  | (s, p) :: rest =>
    if s = spec then (s, TomlProfile.merge p op) :: rest
    else (s, p) :: TomlProfile.mergeOne rest spec op
termination_by (sizeOf op, 1, sizeOf selfList)

end

/-- Embeds `TomlProfiles` (the map of named profiles). -/
structure TomlProfiles where
  val : List (String × TomlProfile)

/-- Embeds `TomlProfiles::get_all`. -/
def TomlProfiles.get_all (p : TomlProfiles) : List (String × TomlProfile) := p.val

/-- Embeds `TomlProfiles::get`. -/
def TomlProfiles.get (p : TomlProfiles) (name : String) : Option TomlProfile :=
  alGet p.val name

/-- Embeds `TomlLintLevel`. -/
inductive TomlLintLevel where
  | Forbid
  | Deny
  | Warn
  | Allow
deriving DecidableEq, Repr

/-- Embeds `TomlLintConfig` (`priority` is an `i8`, modelled as `Int`; it
defaults to 0). -/
structure TomlLintConfig where
  level : TomlLintLevel
  priority : Int := 0
deriving DecidableEq, Repr

/-- Embeds `TomlLint`: a bare level or a `{level, priority}` record. -/
inductive TomlLint where
  | Level (level : TomlLintLevel)
  | Config (config : TomlLintConfig)
deriving DecidableEq, Repr

/-- Embeds `TomlLint::level`. -/
def TomlLint.level : TomlLint → TomlLintLevel
  | .Level level => level
  | .Config config => config.level

/-- Embeds `TomlLint::priority`: the bare-level shape defaults to 0. -/
def TomlLint.priority : TomlLint → Int
  | .Level _ => 0
  | .Config config => config.priority

/-- Embeds the alias `TomlToolLints`. -/
abbrev TomlToolLints := List (String × TomlLint)

/-- Embeds the alias `TomlLints`. -/
abbrev TomlLints := List (String × TomlToolLints)

/-- Embeds `InheritableLints` (`workspace` decodes through `bool_no_false`
and defaults to `false` when absent; the lint tables are flattened in). -/
structure InheritableLints where
  workspace : Bool
  lints : TomlLints
deriving DecidableEq, Repr

/-- Embeds `TomlTarget` (all fields optional; legacy `crate_type` /
`proc_macro` spellings kept alongside the canonical ones). -/
structure TomlTarget where
  name : Option String := none
  crate_type : Option (List String) := none
  crate_type2 : Option (List String) := none
  path : Option PathValue := none
  filename : Option String := none
  test : Option Bool := none
  doctest : Option Bool := none
  bench : Option Bool := none
  doc : Option Bool := none
  plugin : Option Bool := none
  doc_scrape_examples : Option Bool := none
  proc_macro : Option Bool := none
  proc_macro2 : Option Bool := none
  harness : Option Bool := none
  required_features : Option (List String) := none
  edition : Option String := none
deriving Repr

/-- Embeds the alias `TomlLibTarget` (likewise `TomlBinTarget`,
`TomlExampleTarget`, `TomlTestTarget`, `TomlBenchTarget`). -/
abbrev TomlLibTarget := TomlTarget

/-- Embeds `TomlTarget::crate_types` (renamed accessor): canonical
`crate-type` wins over the legacy `crate_type` spelling. -/
def TomlTarget.crate_types (t : TomlTarget) : Option (List String) :=
  t.crate_type.or t.crate_type2

/-- Embeds `TomlPlatform` (a `target` entry). -/
structure TomlPlatform where
  dependencies : Option (List (String × InheritableDependency)) := none
  build_dependencies : Option (List (String × InheritableDependency)) := none
  build_dependencies2 : Option (List (String × InheritableDependency)) := none
  dev_dependencies : Option (List (String × InheritableDependency)) := none
  dev_dependencies2 : Option (List (String × InheritableDependency)) := none
deriving Repr

/-- Embeds `InheritablePackage`: the workspace-level defaults members may
inherit. -/
structure InheritablePackage where
  version : Option SemverVersion := none
  authors : Option (List String) := none
  description : Option String := none
  homepage : Option String := none
  documentation : Option String := none
  readme : Option StringOrBool := none
  keywords : Option (List String) := none
  categories : Option (List String) := none
  license : Option String := none
  license_file : Option String := none
  repository : Option String := none
  publish : Option VecStringOrBool := none
  edition : Option String := none
  badges : Option (List (String × List (String × String))) := none
  exclude : Option (List String) := none
  «include» : Option (List String) := none
  rust_version : Option RustVersion := none
deriving Repr

/-- Embeds `TomlWorkspace`. -/
structure TomlWorkspace where
  members : Option (List String) := none
  exclude : Option (List String) := none
  default_members : Option (List String) := none
  resolver : Option String := none
  metadata : Option Toml := none
  package : Option InheritablePackage := none
  dependencies : Option (List (String × TomlDependency)) := none
  lints : Option TomlLints := none
deriving Repr

/-- Embeds `InvalidCargoFeatures`: a unit marker whose decode always fails
(the `cargo-features` key is only valid at the top of the document). -/
inductive InvalidCargoFeatures where
  | mk
deriving DecidableEq, Repr

/-- Embeds `InvalidCargoFeatures`' `Deserialize` impl. -/
def InvalidCargoFeatures.deserialize (_v : Toml) : Except String InvalidCargoFeatures :=
  .error "the field `cargo-features` should be set at the top of Cargo.toml before any tables"

/-- Embeds `TomlPackage` (the `package`/`project` section; `name` is the one
required field). -/
structure TomlPackage where
  edition : Option InheritableString := none
  rust_version : Option InheritableRustVersion := none
  name : String
  version : Option InheritableSemverVersion := none
  authors : Option InheritableVecString := none
  build : Option StringOrBool := none
  metabuild : Option StringOrVec := none
  default_target : Option String := none
  forced_target : Option String := none
  links : Option String := none
  exclude : Option InheritableVecString := none
  «include» : Option InheritableVecString := none
  publish : Option InheritableVecStringOrBool := none
  workspace : Option String := none
  im_a_teapot : Option Bool := none
  autobins : Option Bool := none
  autoexamples : Option Bool := none
  autotests : Option Bool := none
  autobenches : Option Bool := none
  default_run : Option String := none
  description : Option InheritableString := none
  homepage : Option InheritableString := none
  documentation : Option InheritableString := none
  readme : Option InheritableStringOrBool := none
  keywords : Option InheritableVecString := none
  categories : Option InheritableVecString := none
  license : Option InheritableString := none
  license_file : Option InheritableString := none
  repository : Option InheritableString := none
  resolver : Option String := none
  metadata : Option Toml := none
  _invalid_cargo_features : Option InvalidCargoFeatures := none
deriving Repr

/-- Embeds `TomlManifest`: the root of the decoded document, with both alias
slots (`package`/`project`, canonical and legacy dependency-table spellings)
kept as decoded. -/
structure TomlManifest where
  cargo_features : Option (List String) := none
  package : Option TomlPackage := none
  project : Option TomlPackage := none
  profile : Option TomlProfiles := none
  lib : Option TomlLibTarget := none
  bin : Option (List TomlTarget) := none
  «example» : Option (List TomlTarget) := none
  test : Option (List TomlTarget) := none
  bench : Option (List TomlTarget) := none
  dependencies : Option (List (String × InheritableDependency)) := none
  dev_dependencies : Option (List (String × InheritableDependency)) := none
  dev_dependencies2 : Option (List (String × InheritableDependency)) := none
  build_dependencies : Option (List (String × InheritableDependency)) := none
  build_dependencies2 : Option (List (String × InheritableDependency)) := none
  features : Option (List (String × List String)) := none
  target : Option (List (String × TomlPlatform)) := none
  replace : Option (List (String × TomlDependency)) := none
  patch : Option (List (String × List (String × TomlDependency))) := none
  workspace : Option TomlWorkspace := none
  badges : Option InheritableBtreeMap := none
  lints : Option InheritableLints := none

/-- Embeds `TomlManifest::has_profiles`. -/
def TomlManifest.has_profiles (m : TomlManifest) : Bool := m.profile.isSome

/-- Embeds the accessor `TomlManifest::package` (renamed, as the projection
takes the field's name): the canonical `package` slot wins over the legacy
`project` alias, which is otherwise ignored. -/
def TomlManifest.getPackage (m : TomlManifest) : Option TomlPackage :=
  m.package.or m.project

/-- Embeds the accessor `TomlManifest::dev_dependencies` (renamed):
`dev-dependencies` wins over the legacy `dev_dependencies` spelling. -/
def TomlManifest.devDependencies (m : TomlManifest) :
    Option (List (String × InheritableDependency)) :=
  m.dev_dependencies.or m.dev_dependencies2

/-- Embeds the accessor `TomlManifest::build_dependencies` (renamed):
`build-dependencies` wins over the legacy `build_dependencies` spelling. -/
def TomlManifest.buildDependencies (m : TomlManifest) :
    Option (List (String × InheritableDependency)) :=
  m.build_dependencies.or m.build_dependencies2

/-- Sample nested-override profile: only `debug` set (the spec's `"foo"` entry
with `debug: Some(Full)`). -/
def profileDebugFull : TomlProfile :=
  .mk none none none none (some .Full) none none none none none none none none
    none none none none none

/-- Sample nested-override profile: only `opt_level` set (the spec's `"foo"`
entry with `opt_level: Some("3")`). -/
def profileOpt3 : TomlProfile :=
  .mk (some ⟨"3"⟩) none none none none none none none none none none none none
    none none none none none

/-- Sample profile holding the `"foo"` → `profileDebugFull` package override. -/
def profileA : TomlProfile :=
  .mk none none none none none none none none none none none none none none none
    (some [(.Spec ⟨"foo"⟩, profileDebugFull)]) none none

/-- Sample profile holding the `"foo"` → `profileOpt3` package override. -/
def profileB : TomlProfile :=
  .mk none none none none none none none none none none none none none none none
    (some [(.Spec ⟨"foo"⟩, profileOpt3)]) none none

/-- Sample package for the canonical `package` slot. -/
def samplePackage : TomlPackage := { name := "canonical" }

/-- Sample package for the legacy `project` slot, disagreeing with
`samplePackage`. -/
def sampleProject : TomlPackage := { name := "legacy" }

/-- Sample manifest with both the canonical and the legacy package slot
populated, with different contents. -/
def sampleManifestBoth : TomlManifest :=
  { package := some samplePackage, project := some sampleProject }

/-- Sample detailed dependency with both `default-features` spellings
populated and disagreeing. -/
def sampleDetailedBoth : TomlDetailedDependency :=
  { default_features := some true, default_features2 := some false }

/-- Sample inherited dependency with both `default-features` spellings
populated and disagreeing. -/
def sampleInheritedBoth : TomlInheritedDependency :=
  { workspace := true, default_features := some false, default_features2 := some true }

/-- The per-field merge step keeps `other`'s value when present and `self`'s
otherwise, which is exactly `Option.or` with `other` first. -/
theorem mergeField_eq_or (s o : Option α) : mergeField s o = o.or s := by
  cases o <;> rfl

/-- Lookup in an association list misses every key absent from the key
column. -/
theorem alGet_eq_none_of_not_mem [DecidableEq κ] (l : List (κ × ν)) (k : κ)
    (h : k ∉ l.map Prod.fst) : alGet l k = none := by
  induction l with
  | nil => rfl
  | cons hd rest ih =>
    obtain ⟨s, p⟩ := hd
    simp only [List.map_cons, List.mem_cons] at h
    push_neg at h
    simp [alGet, Ne.symm h.1, ih h.2]

/-- Effect of one `get_mut`-or-insert step of the package-override loop on an
arbitrary later lookup. -/
theorem alGet_mergeOne (sl : List (ProfilePackageSpec × TomlProfile))
    (spec k : ProfilePackageSpec) (op : TomlProfile) :
    alGet (TomlProfile.mergeOne sl spec op) k =
      if k = spec then
        (match alGet sl spec with
         | some p => some (p.merge op)
         | none => some op)
      else alGet sl k := by
  induction sl with
  | nil =>
    by_cases hk : k = spec
    · subst hk; simp [TomlProfile.mergeOne, alGet]
    · simp [TomlProfile.mergeOne, alGet, hk, Ne.symm hk]
  | cons hd rest ih =>
    obtain ⟨s, p⟩ := hd
    by_cases hs : s = spec
    · subst hs
      by_cases hk : k = s
      · subst hk; simp [TomlProfile.mergeOne, alGet]
      · simp [TomlProfile.mergeOne, alGet, hk, Ne.symm hk]
    · by_cases hk : k = spec
      · subst hk
        simp [TomlProfile.mergeOne, alGet, hs, ih, fun h : s = k => hs h]
      · simp [TomlProfile.mergeOne, alGet, hs, hk, ih]

/-- Effect of the whole package-override loop on a lookup, provided `other`'s
key column is duplicate-free (as a `BTreeMap`'s always is): present-on-both
keys hold the recursive merge, `other`-only keys hold `other`'s entry,
`self`-only keys are untouched. -/
theorem alGet_mergePkgList (sl ol : List (ProfilePackageSpec × TomlProfile))
    (k : ProfilePackageSpec) (hnd : (ol.map Prod.fst).Nodup) :
    alGet (TomlProfile.mergePkgList sl ol) k =
      match alGet sl k, alGet ol k with
      | some p, some q => some (p.merge q)
      | some p, none => some p
      | none, x => x := by
  induction ol generalizing sl with
  | nil =>
    simp only [TomlProfile.mergePkgList, alGet]
    cases alGet sl k <;> rfl
  | cons hd rest ih =>
    obtain ⟨k0, q0⟩ := hd
    simp only [List.map_cons, List.nodup_cons] at hnd
    simp only [TomlProfile.mergePkgList]
    rw [ih _ hnd.2, alGet_mergeOne]
    by_cases hk : k = k0
    · subst hk
      rw [alGet_eq_none_of_not_mem rest k hnd.1]
      simp only [alGet, if_pos rfl]
      cases alGet sl k <;> rfl
    · simp only [if_neg hk, alGet, if_neg (fun h : k0 = k => hk h.symm)]

/-- Expansion of `TomlProfile.merge` into one constructor application over
the two inputs' projections. -/
theorem tomlProfile_merge_def (a b : TomlProfile) :
    a.merge b = .mk
      (mergeField a.opt_level b.opt_level) (mergeField a.lto b.lto)
      (mergeField a.codegen_backend b.codegen_backend)
      (mergeField a.codegen_units b.codegen_units) (mergeField a.debug b.debug)
      (mergeField a.split_debuginfo b.split_debuginfo)
      (mergeField a.debug_assertions b.debug_assertions)
      (mergeField a.rpath b.rpath) (mergeField a.panicSetting b.panicSetting)
      (mergeField a.overflow_checks b.overflow_checks)
      (mergeField a.incremental b.incremental) (mergeField a.dir_name b.dir_name)
      (mergeField a.inherits b.inherits) (mergeField a.strip b.strip)
      (mergeField a.rustflags b.rustflags)
      (match a.package, b.package with
       | some sl, some ol => some (TomlProfile.mergePkgList sl ol)
       | none, some ol => some ol
       | keep, none => keep)
      (match a.build_override, b.build_override with
       | some sa, some ob => some (sa.merge ob)
       | none, some ob => some ob
       | keep, none => keep)
      (mergeField a.trim_paths b.trim_paths) := by
  cases a with
  | mk a1 a2 a3 a4 a5 a6 a7 a8 a9 a10 a11 a12 a13 a14 a15 ap ab at' =>
  cases b with
  | mk b1 b2 b3 b4 b5 b6 b7 b8 b9 b10 b11 b12 b13 b14 b15 bp bb bt =>
  cases ap <;> cases bp <;> cases ab <;> cases bb <;>
    simp [TomlProfile.merge, TomlProfile.opt_level, TomlProfile.lto,
      TomlProfile.codegen_backend, TomlProfile.codegen_units, TomlProfile.debug,
      TomlProfile.split_debuginfo, TomlProfile.debug_assertions, TomlProfile.rpath,
      TomlProfile.panicSetting, TomlProfile.overflow_checks, TomlProfile.incremental,
      TomlProfile.dir_name, TomlProfile.inherits, TomlProfile.strip,
      TomlProfile.rustflags, TomlProfile.package, TomlProfile.build_override,
      TomlProfile.trim_paths]

/-- The `package` slot of a merged profile, in terms of the two inputs'
slots. -/
theorem tomlProfile_merge_package (a b : TomlProfile) :
    (a.merge b).package =
      match a.package, b.package with
      | some sl, some ol => some (TomlProfile.mergePkgList sl ol)
      | none, some ol => some ol
      | keep, none => keep := by
  rw [tomlProfile_merge_def]
  rfl

/-- The `build_override` slot of a merged profile, in terms of the two
inputs' slots. -/
theorem tomlProfile_merge_build_override (a b : TomlProfile) :
    (a.merge b).build_override =
      match a.build_override, b.build_override with
      | some sa, some ob => some (sa.merge ob)
      | none, some ob => some ob
      | keep, none => keep := by
  rw [tomlProfile_merge_def]
  rfl

/-- Claim C1 (code bug witness): decoding the dependency table
`{ version = "1.0.0" }` as a `TomlDependency` does not produce
`Detailed { version: Some("1.0.0"), ..defaults }` — the deserializer in this
source tree only attempts the string shape and panics on the table, via
`.expect("TODO: it's a toml map, toml dep detailed decode")`. -/
theorem tomlDependency_version_table_decode_panics :
    TomlDependency.deserialize (.table [("version", .str "1.0.0")])
      = .crash "TODO: it's a toml map, toml dep detailed decode" := rfl

/-- Claim C2 (amended): for every inheritable type, decoding
`{workspace = true}` yields `Inherit`, and decoding `{workspace = false}`
always fails, never silently producing a non-inheriting value; the error is
"`workspace` cannot be false" for every type except `InheritableBtreeMap`,
whose failed marker decode falls through to the badges-map decode and
surfaces that decode's type-mismatch error instead.  The two external version
parsers are universally quantified. -/
theorem inheritable_workspace_marker_decode
    (parseSemver : String → Except String SemverVersion)
    (parsePv : String → Except String PartialVersion) :
    (InheritableString.deserialize (.table [("workspace", .bool true)])
        = .ok (.Inherit ⟨true⟩)
      ∧ InheritableString.deserialize (.table [("workspace", .bool false)])
        = .error "`workspace` cannot be false")
    ∧ (InheritableSemverVersion.deserialize parseSemver (.table [("workspace", .bool true)])
        = .ok (.Inherit ⟨true⟩)
      ∧ InheritableSemverVersion.deserialize parseSemver (.table [("workspace", .bool false)])
        = .error "`workspace` cannot be false")
    ∧ (InheritableRustVersion.deserialize parsePv (.table [("workspace", .bool true)])
        = .ok (.Inherit ⟨true⟩)
      ∧ InheritableRustVersion.deserialize parsePv (.table [("workspace", .bool false)])
        = .error "`workspace` cannot be false")
    ∧ (InheritableVecString.deserialize (.table [("workspace", .bool true)])
        = .ok (.Inherit ⟨true⟩)
      ∧ InheritableVecString.deserialize (.table [("workspace", .bool false)])
        = .error "`workspace` cannot be false")
    ∧ (InheritableStringOrBool.deserialize (.table [("workspace", .bool true)])
        = .ok (.Inherit ⟨true⟩)
      ∧ InheritableStringOrBool.deserialize (.table [("workspace", .bool false)])
        = .error "`workspace` cannot be false")
    ∧ (InheritableVecStringOrBool.deserialize (.table [("workspace", .bool true)])
        = .ok (.Inherit ⟨true⟩)
      ∧ InheritableVecStringOrBool.deserialize (.table [("workspace", .bool false)])
        = .error "`workspace` cannot be false")
    ∧ (InheritableBtreeMap.deserialize (.table [("workspace", .bool true)])
        = .ok (.Inherit ⟨true⟩)
      ∧ InheritableBtreeMap.deserialize (.table [("workspace", .bool false)])
        = .error "invalid type: boolean `false`, expected a map")
    ∧ (InheritableDependency.deserialize (.table [("workspace", .bool true)])
        = .ok (.Inherit { workspace := true })
      ∧ InheritableDependency.deserialize (.table [("workspace", .bool false)])
        = .err "`workspace` cannot be false") :=
  ⟨⟨rfl, rfl⟩, ⟨rfl, rfl⟩, ⟨rfl, rfl⟩, ⟨rfl, rfl⟩, ⟨rfl, rfl⟩, ⟨rfl, rfl⟩,
    ⟨rfl, rfl⟩, ⟨rfl, rfl⟩⟩

/-- Claim C2 (counterexample): for the InheritableField instantiation
`InheritableBtreeMap`, decoding `{workspace = false}` does fail, but not with
an error stating that `workspace` cannot be false: the marker's error is
discarded and the fallback map decode's type-mismatch error is returned. -/
theorem inheritableBtreeMap_false_error_counterexample :
    InheritableBtreeMap.deserialize (.table [("workspace", .bool false)])
      = .error "invalid type: boolean `false`, expected a map"
    ∧ InheritableBtreeMap.deserialize (.table [("workspace", .bool false)])
      ≠ .error "`workspace` cannot be false" := by
  refine ⟨rfl, ?_⟩
  show (Except.error "invalid type: boolean `false`, expected a map" :
      Except String InheritableBtreeMap) ≠ Except.error "`workspace` cannot be false"
  simp only [ne_eq, Except.error.injEq]
  decide

/-- Claim C3 (counterexample): a marker table with `workspace = true` and an
extra key is not rejected for a plain `InheritableField`: the serde derive of
`TomlInheritedField` carries no `deny_unknown_fields`, so `{workspace = true,
extra = 1}` decodes to `Inherit`, the extra key ignored. -/
theorem inheritableString_extra_key_accepted :
    InheritableString.deserialize
        (.table [("workspace", .bool true), ("extra", .int 1)])
      = .ok (.Inherit ⟨true⟩) := rfl

/-- Claim C3 (amended): an inheritance marker table with `workspace = true`
and additional keys decodes successfully rather than failing: every table
whose first `workspace` entry is `true` yields `Inherit` for a plain
`InheritableField` (extra keys are ignored, left to the external unused-key
tracking), and for `InheritableDependency` keys beyond the allowed override
set are likewise accepted, retained in the `_unused_keys` bag. -/
theorem inheritable_marker_extra_keys_ignored (kvs : List (String × Toml))
    (h : tomlLookup "workspace" kvs = some (.bool true)) :
    InheritableString.deserialize (.table kvs) = .ok (.Inherit ⟨true⟩)
    ∧ InheritableDependency.deserialize
        (.table [("workspace", .bool true), ("extra", .int 1)])
      = .ok (.Inherit { workspace := true, _unused_keys := [("extra", .int 1)] }) := by
  refine ⟨?_, rfl⟩
  simp only [InheritableString.deserialize, TomlInheritedField.deserialize, h]
  rfl

/-- Witness for claim C3's amended theorem at the concrete input
`{workspace = true, extra = 1}`. -/
theorem inheritable_marker_extra_keys_ignored_witness :
    InheritableString.deserialize
        (.table [("workspace", .bool true), ("extra", .int 1)])
      = .ok (.Inherit ⟨true⟩)
    ∧ InheritableDependency.deserialize
        (.table [("workspace", .bool true), ("extra", .int 1)])
      = .ok (.Inherit { workspace := true, _unused_keys := [("extra", .int 1)] }) :=
  inheritable_marker_extra_keys_ignored
    [("workspace", .bool true), ("extra", .int 1)] rfl

/-- Claim C4: `TomlProfile::merge` is right-biased per scalar field — every
scalar field (including `inherits` and `dir_name`) that is `Some` in the
right profile overwrites the left one's field, and a `None` field in the
right profile leaves the left one's value unchanged; field by field this is
`Option.or` with the right profile first. -/
theorem tomlProfile_merge_right_biased (a b : TomlProfile) :
    (a.merge b).opt_level = b.opt_level.or a.opt_level
    ∧ (a.merge b).lto = b.lto.or a.lto
    ∧ (a.merge b).codegen_backend = b.codegen_backend.or a.codegen_backend
    ∧ (a.merge b).codegen_units = b.codegen_units.or a.codegen_units
    ∧ (a.merge b).debug = b.debug.or a.debug
    ∧ (a.merge b).split_debuginfo = b.split_debuginfo.or a.split_debuginfo
    ∧ (a.merge b).debug_assertions = b.debug_assertions.or a.debug_assertions
    ∧ (a.merge b).rpath = b.rpath.or a.rpath
    ∧ (a.merge b).panicSetting = b.panicSetting.or a.panicSetting
    ∧ (a.merge b).overflow_checks = b.overflow_checks.or a.overflow_checks
    ∧ (a.merge b).incremental = b.incremental.or a.incremental
    ∧ (a.merge b).dir_name = b.dir_name.or a.dir_name
    ∧ (a.merge b).inherits = b.inherits.or a.inherits
    ∧ (a.merge b).strip = b.strip.or a.strip
    ∧ (a.merge b).rustflags = b.rustflags.or a.rustflags
    ∧ (a.merge b).trim_paths = b.trim_paths.or a.trim_paths := by
  rw [tomlProfile_merge_def]
  refine ⟨?_, ?_, ?_, ?_, ?_, ?_, ?_, ?_, ?_, ?_, ?_, ?_, ?_, ?_, ?_, ?_⟩ <;>
    simp only [TomlProfile.opt_level, TomlProfile.lto, TomlProfile.codegen_backend,
      TomlProfile.codegen_units, TomlProfile.debug, TomlProfile.split_debuginfo,
      TomlProfile.debug_assertions, TomlProfile.rpath, TomlProfile.panicSetting,
      TomlProfile.overflow_checks, TomlProfile.incremental, TomlProfile.dir_name,
      TomlProfile.inherits, TomlProfile.strip, TomlProfile.rustflags,
      TomlProfile.trim_paths, mergeField_eq_or]

/-- Claim C5: in `TomlProfile::merge` the nested override slots merge
recursively rather than being replaced — when a pattern key is present in
both `package` maps the two nested profiles are merged recursively, a pattern
present only in the right map inserts that entry, and `build_override`
present on both sides merges recursively while one present only on the
right side is adopted wholesale. -/
theorem tomlProfile_merge_nested (a b : TomlProfile)
    (la lb : List (ProfilePackageSpec × TomlProfile)) (spec : ProfilePackageSpec)
    (pb : TomlProfile)
    (ha : a.package = some la) (hb : b.package = some lb)
    (hnd : (lb.map Prod.fst).Nodup) (hlb : alGet lb spec = some pb) :
    (∀ pa, alGet la spec = some pa →
        (a.merge b).package = some (TomlProfile.mergePkgList la lb)
        ∧ alGet (TomlProfile.mergePkgList la lb) spec = some (pa.merge pb))
    ∧ (alGet la spec = none →
        (a.merge b).package = some (TomlProfile.mergePkgList la lb)
        ∧ alGet (TomlProfile.mergePkgList la lb) spec = some pb)
    ∧ ((a.merge b).build_override =
        match a.build_override, b.build_override with
        | some sa, some ob => some (sa.merge ob)
        | none, some ob => some ob
        | keep, none => keep) := by
  have hpkg : (a.merge b).package = some (TomlProfile.mergePkgList la lb) := by
    rw [tomlProfile_merge_package, ha, hb]
  refine ⟨?_, ?_, tomlProfile_merge_build_override a b⟩
  · intro pa hla
    refine ⟨hpkg, ?_⟩
    rw [alGet_mergePkgList la lb spec hnd, hla, hlb]
  · intro hla
    refine ⟨hpkg, ?_⟩
    rw [alGet_mergePkgList la lb spec hnd, hla, hlb]

/-- Witness for claim C5's theorem: merging the two one-entry `"foo"` package
maps of `profileA` and `profileB` yields the recursive merge of the nested
profiles under `"foo"`. -/
theorem tomlProfile_merge_nested_witness :
    (profileA.merge profileB).package
      = some (TomlProfile.mergePkgList [(.Spec ⟨"foo"⟩, profileDebugFull)]
          [(.Spec ⟨"foo"⟩, profileOpt3)])
    ∧ alGet (TomlProfile.mergePkgList [(.Spec ⟨"foo"⟩, profileDebugFull)]
          [(.Spec ⟨"foo"⟩, profileOpt3)]) (.Spec ⟨"foo"⟩)
      = some (profileDebugFull.merge profileOpt3) :=
  (tomlProfile_merge_nested profileA profileB
      [(.Spec ⟨"foo"⟩, profileDebugFull)] [(.Spec ⟨"foo"⟩, profileOpt3)]
      (.Spec ⟨"foo"⟩) profileOpt3 rfl rfl (by simp) (by simp [alGet])).1
    profileDebugFull (by simp [alGet])

/-- Claim C6 (counterexample): the two-element trim-paths sets decoded from
`["macro","object"]` and `["object","macro"]` denote the same element set
but are not equal — the derived equality of `TomlTrimPaths` is structural
and order-sensitive, not order-insensitive. -/
theorem tomlTrimPaths_order_sensitive_counterexample :
    TomlTrimPaths.deserialize (.arr [.str "macro", .str "object"])
      = .ok (.Values [.Macro, .Object])
    ∧ TomlTrimPaths.deserialize (.arr [.str "object", .str "macro"])
      = .ok (.Values [.Object, .Macro])
    ∧ TomlTrimPaths.Values [.Macro, .Object] ≠ TomlTrimPaths.Values [.Object, .Macro] := by
  refine ⟨rfl, rfl, ?_⟩
  decide

/-- Claim C6 (amended): path-trimming decode normalizes equivalent inputs —
`false`, `"none"` and the empty array all decode to the empty `Values` form
(for which `is_none` holds), `true` and `"all"` both decode to `All`, and
`["macro","object"]` decodes to the two-element `Values` set, whose equality
is structural (order-sensitive) and whose display preserves element order. -/
theorem tomlTrimPaths_normalization :
    TomlTrimPaths.deserialize (.bool false) = .ok (.Values [])
    ∧ TomlTrimPaths.deserialize (.str "none") = .ok (.Values [])
    ∧ TomlTrimPaths.deserialize (.arr []) = .ok (.Values [])
    ∧ (TomlTrimPaths.Values []).is_none = true
    ∧ TomlTrimPaths.deserialize (.bool true) = .ok .All
    ∧ TomlTrimPaths.deserialize (.str "all") = .ok .All
    ∧ TomlTrimPaths.deserialize (.arr [.str "macro", .str "object"])
      = .ok (.Values [.Macro, .Object])
    ∧ (TomlTrimPaths.Values [.Macro, .Object]).display = "macro,object"
    ∧ (TomlTrimPaths.Values [.Object, .Macro]).display = "object,macro" :=
  ⟨rfl, rfl, rfl, rfl, rfl, rfl, rfl, rfl, rfl⟩

/-- Claim C7: optimization-level decode accepts the integers 0, 1, 2, 3 and
exactly the strings "s" and "z"; every other string is rejected with the
error naming the accepted shapes. -/
theorem tomlOptLevel_accepted_shapes (s : String) (hs : s ≠ "s") (hz : s ≠ "z") :
    (TomlOptLevel.deserialize (.int 0) = .ok ⟨"0"⟩
      ∧ TomlOptLevel.deserialize (.int 1) = .ok ⟨"1"⟩
      ∧ TomlOptLevel.deserialize (.int 2) = .ok ⟨"2"⟩
      ∧ TomlOptLevel.deserialize (.int 3) = .ok ⟨"3"⟩
      ∧ TomlOptLevel.deserialize (.str "s") = .ok ⟨"s"⟩
      ∧ TomlOptLevel.deserialize (.str "z") = .ok ⟨"z"⟩)
    ∧ TomlOptLevel.deserialize (.str s)
      = .error ("must be `0`, `1`, `2`, `3`, `s` or `z`, but found the string: \""
          ++ s ++ "\"") := by
  refine ⟨⟨rfl, rfl, rfl, rfl, rfl, rfl⟩, ?_⟩
  simp [TomlOptLevel.deserialize, hs, hz]

/-- Witness for claim C7's theorem at the concrete rejected string "fast". -/
theorem tomlOptLevel_accepted_shapes_witness :
    TomlOptLevel.deserialize (.str "fast")
      = .error ("must be `0`, `1`, `2`, `3`, `s` or `z`, but found the string: \""
          ++ "fast" ++ "\"") :=
  (tomlOptLevel_accepted_shapes "fast" (by decide) (by decide)).2

/-- Claim C8: debug-info decoding maps `true` to `Full`, `false` to `None`,
the integers 0/1/2 to `None`/`Limited`/`Full`, and "line-tables-only" to
`LineTablesOnly`; encoding is lossy on the boolean inputs — serializing
`Full` produces the integer 2, never the boolean `true`. -/
theorem tomlDebugInfo_decode_encode :
    TomlDebugInfo.deserialize (.bool true) = .ok .Full
    ∧ TomlDebugInfo.deserialize (.bool false) = .ok .None
    ∧ TomlDebugInfo.deserialize (.int 0) = .ok .None
    ∧ TomlDebugInfo.deserialize (.int 1) = .ok .Limited
    ∧ TomlDebugInfo.deserialize (.int 2) = .ok .Full
    ∧ TomlDebugInfo.deserialize (.str "line-tables-only") = .ok .LineTablesOnly
    ∧ TomlDebugInfo.serialize .Full = .int 2
    ∧ TomlDebugInfo.serialize .Full ≠ .bool true :=
  ⟨rfl, rfl, rfl, rfl, rfl, rfl, rfl, fun h => Toml.noConfusion h⟩

/-- Claim C9: for the aliased slots, the canonical accessor returns the
non-legacy slot's value when both are populated and silently ignores the
legacy one, raising no error even when the two values disagree: `package`
wins over `project` on the manifest, and `default-features` wins over the
legacy `default_features` spelling on both dependency records. -/
theorem alias_accessors_prefer_non_legacy
    (m : TomlManifest) (p q : TomlPackage)
    (d : TomlDetailedDependency) (w : TomlInheritedDependency) (b1 b2 c1 c2 : Bool)
    (hp : m.package = some p) (_hq : m.project = some q)
    (hd1 : d.default_features = some b1) (_hd2 : d.default_features2 = some b2)
    (hw1 : w.default_features = some c1) (_hw2 : w.default_features2 = some c2) :
    m.getPackage = some p
    ∧ d.defaultFeatures = some b1
    ∧ w.defaultFeatures = some c1 := by
  refine ⟨?_, ?_, ?_⟩
  · rw [TomlManifest.getPackage, hp]; rfl
  · rw [TomlDetailedDependency.defaultFeatures, hd1]; rfl
  · rw [TomlInheritedDependency.defaultFeatures, hw1]; rfl

/-- Witness for claim C9's theorem on records whose two alias slots disagree. -/
theorem alias_accessors_prefer_non_legacy_witness :
    sampleManifestBoth.getPackage = some samplePackage
    ∧ sampleDetailedBoth.defaultFeatures = some true
    ∧ sampleInheritedBoth.defaultFeatures = some false :=
  alias_accessors_prefer_non_legacy sampleManifestBoth samplePackage sampleProject
    sampleDetailedBoth sampleInheritedBoth true false false true
    rfl rfl rfl rfl rfl rfl

/-- Claim C10: every integer — inside 0–3 or not — decodes as an optimization
level, yielding the `TomlOptLevel` holding its decimal string; only the
string shape is restricted. -/
theorem tomlOptLevel_any_integer (n : Int) :
    TomlOptLevel.deserialize (.int n) = .ok ⟨toString n⟩ := rfl
